import Mathlib

/-!
Verification of the core game-state logic of "the-awakening-loop": the
meter engine, phase state machine, presence monitor, lock minigame,
key-mash accumulator and block-transfer task, shallowly embedded from the
TypeScript source (src/services/ChatService.ts, src/components/BlockTask.tsx,
src/hooks/useHandTracker.ts).  Real-valued quantities are modelled as
rationals; JavaScript `Math.min/Math.max` clamping is translated literally.
-/

namespace AwakeningLoop

/-- Game phases, from `type Phase` in src/types. -/
inductive Phase
  | TRAPPED
  | ANXIOUS
  | WORK
  | BREAKING
  | AWAKENED
  | FAILED
deriving DecidableEq, Repr

/-- `clamp(value, min, max) = Math.min(max, Math.max(min, value))`. -/
def clamp (value lo hi : ℚ) : ℚ := min hi (max lo value)

def LINK_GAIN_PER_SEC : ℚ := 10
def LINK_DECAY_PER_SEC : ℚ := 8
def NO_FACE_DECAY_PER_SEC : ℚ := 6
def STABILITY_GAIN_PER_SEC : ℚ := 0.6
def STABILITY_DECAY_PER_SEC : ℚ := 0.8
def PRESENCE_GRACE_MS : ℤ := 3000
def FIREWALL_HIT_VALUE : ℚ := 10
def FIREWALL_DECAY_PER_SEC : ℚ := 8

/-- The extra per-second stability decay applied when no face is visible
(the literal `0.35` in the meter tick). -/
def NO_FACE_STABILITY_DECAY_PER_SEC : ℚ := 0.35

/-- A detected face bounding box, normalized coordinates. -/
structure FaceBox where
  x : ℚ
  y : ℚ
  width : ℚ
  height : ℚ
deriving DecidableEq, Repr

/-- The four continuous meters owned by the meter engine. -/
structure Meters where
  signal : ℚ
  stability : ℚ
  interference : ℚ
  gazeDurationMs : ℚ
deriving DecidableEq, Repr

/-- The "centered face" gate of the TRAPPED meter tick:
`hasFace && |centerX - 0.5| < 0.18 && |centerY - 0.5| < 0.22`
where centerX/centerY are the face-box center. -/
def inCenterB (box : Option FaceBox) : Bool :=
  match box with
  | none => false
  | some b =>
    let centerX := b.x + b.width / 2
    let centerY := b.y + b.height / 2
    decide (|centerX - 0.5| < (0.18 : ℚ)) && decide (|centerY - 0.5| < (0.22 : ℚ))

/-- One continuous meter-engine tick during TRAPPED
(the `tick` closure of the meter effect in ChatService.ts):
centered faces grow signal/stability/gazeDuration, otherwise they decay,
a missing face stacks an extra decay, and interference is recomputed as
the clamped complement of stability. -/
def meterTick (trustIssues : Bool) (dt : ℚ) (box : Option FaceBox) (m : Meters) : Meters :=
  let hasFace := box.isSome
  let inCenter := inCenterB box
  let trustGainMultiplier : ℚ := if trustIssues then 0.8 else 1
  let m1 :=
    if inCenter then
      { m with
        gazeDurationMs := min 20000 (m.gazeDurationMs + dt * 1000)
        signal := clamp (m.signal + dt * LINK_GAIN_PER_SEC * trustGainMultiplier) 0 100
        stability := clamp (m.stability + dt * STABILITY_GAIN_PER_SEC) 0 1 }
    else
      { m with
        gazeDurationMs := 0
        signal := clamp (m.signal - dt * LINK_DECAY_PER_SEC) 0 100
        stability := clamp (m.stability - dt * STABILITY_DECAY_PER_SEC) 0 1 }
  let m2 :=
    if hasFace then m1
    else
      { m1 with
        signal := clamp (m1.signal - dt * NO_FACE_DECAY_PER_SEC) 0 100
        stability := clamp (m1.stability - dt * NO_FACE_STABILITY_DECAY_PER_SEC) 0 1 }
  { m2 with interference := clamp (1 - m2.stability) 0 1 }

theorem clamp_le (v lo hi : ℚ) : clamp v lo hi ≤ hi := min_le_left _ _

theorem le_clamp (v lo hi : ℚ) (h : lo ≤ hi) : lo ≤ clamp v lo hi :=
  le_min h (le_max_left _ _)

theorem clamp_eq_self (v lo hi : ℚ) (h1 : lo ≤ v) (h2 : v ≤ hi) : clamp v lo hi = v := by
  unfold clamp
  rw [max_eq_right h1, min_eq_right h2]

/-- The post-tick stability always lands in [0,1]. -/
theorem meterTick_stability_bounds (trustIssues : Bool) (dt : ℚ) (box : Option FaceBox)
    (m : Meters) :
    0 ≤ (meterTick trustIssues dt box m).stability ∧
      (meterTick trustIssues dt box m).stability ≤ 1 := by
  unfold meterTick
  dsimp only
  split <;> split <;>
    exact ⟨le_clamp _ _ _ (by norm_num), clamp_le _ _ _⟩

/-- The tick writes interference as the clamped complement of the post-tick
stability (the final `interferenceRef.current = clamp(1 - stabilityRef.current, 0, 1)`). -/
theorem meterTick_interference_eq (trustIssues : Bool) (dt : ℚ) (box : Option FaceBox)
    (m : Meters) :
    (meterTick trustIssues dt box m).interference
      = clamp (1 - (meterTick trustIssues dt box m).stability) 0 1 := by
  unfold meterTick
  dsimp only

/-- C2: immediately after every continuous meter-engine tick, interference
equals exactly `1 - stability`, and lies in [0,1] (the clamp is the identity
there because the post-tick stability itself lies in [0,1]). -/
theorem interference_complement_after_tick (trustIssues : Bool) (dt : ℚ)
    (box : Option FaceBox) (m : Meters) :
    (meterTick trustIssues dt box m).interference
        = 1 - (meterTick trustIssues dt box m).stability ∧
      0 ≤ (meterTick trustIssues dt box m).interference ∧
      (meterTick trustIssues dt box m).interference ≤ 1 := by
  obtain ⟨h0, h1⟩ := meterTick_stability_bounds trustIssues dt box m
  have heq := meterTick_interference_eq trustIssues dt box m
  have : clamp (1 - (meterTick trustIssues dt box m).stability) 0 1
      = 1 - (meterTick trustIssues dt box m).stability :=
    clamp_eq_self _ _ _ (by linarith) (by linarith)
  refine ⟨heq.trans this, ?_, ?_⟩ <;> rw [heq, this] <;> linarith

/-- Post-tick signal always lands in [0,100]. -/
theorem meterTick_signal_bounds (trustIssues : Bool) (dt : ℚ) (box : Option FaceBox)
    (m : Meters) :
    0 ≤ (meterTick trustIssues dt box m).signal ∧
      (meterTick trustIssues dt box m).signal ≤ 100 := by
  unfold meterTick
  dsimp only
  split <;> split <;>
    exact ⟨le_clamp _ _ _ (by norm_num), clamp_le _ _ _⟩

/-- Post-tick gaze duration stays in [0,20000] ms, provided the frame delta is
nonnegative and the incoming accumulator was nonnegative. -/
theorem meterTick_gaze_bounds (trustIssues : Bool) (dt : ℚ) (box : Option FaceBox)
    (m : Meters) (hdt : 0 ≤ dt) (hg : 0 ≤ m.gazeDurationMs) :
    0 ≤ (meterTick trustIssues dt box m).gazeDurationMs ∧
      (meterTick trustIssues dt box m).gazeDurationMs ≤ 20000 := by
  unfold meterTick
  dsimp only
  have hdtm : 0 ≤ dt * 1000 := by positivity
  split <;> split <;> dsimp only
  · exact ⟨le_min (by norm_num) (by linarith), min_le_left 20000 _⟩
  · exact ⟨le_refl 0, by norm_num⟩
  · exact ⟨le_min (by norm_num) (by linarith), min_le_left 20000 _⟩
  · exact ⟨le_refl 0, by norm_num⟩

/-- C3: for every nonnegative frame delta and every tracking input, the
meters emitted by a meter-engine tick stay inside their declared bounds:
signal in [0,100], stability and interference in [0,1], and gaze duration
in [0,20000] ms (given the accumulator was nonnegative coming in, as it is
from its initial value 0 onward). -/
theorem meterTick_all_bounds (trustIssues : Bool) (dt : ℚ) (box : Option FaceBox)
    (m : Meters) (hdt : 0 ≤ dt) (hg : 0 ≤ m.gazeDurationMs) :
    (0 ≤ (meterTick trustIssues dt box m).signal ∧
        (meterTick trustIssues dt box m).signal ≤ 100) ∧
      (0 ≤ (meterTick trustIssues dt box m).stability ∧
        (meterTick trustIssues dt box m).stability ≤ 1) ∧
      (0 ≤ (meterTick trustIssues dt box m).interference ∧
        (meterTick trustIssues dt box m).interference ≤ 1) ∧
      (0 ≤ (meterTick trustIssues dt box m).gazeDurationMs ∧
        (meterTick trustIssues dt box m).gazeDurationMs ≤ 20000) :=
  ⟨meterTick_signal_bounds trustIssues dt box m,
    meterTick_stability_bounds trustIssues dt box m,
    (interference_complement_after_tick trustIssues dt box m).2,
    meterTick_gaze_bounds trustIssues dt box m hdt hg⟩

/-- Witness for C3 at a concrete input. -/
theorem meterTick_all_bounds_witness :
    (0 ≤ (meterTick false (1/10) none ⟨50, 0.9, 0.1, 0⟩).signal ∧
        (meterTick false (1/10) none ⟨50, 0.9, 0.1, 0⟩).signal ≤ 100) ∧
      (0 ≤ (meterTick false (1/10) none ⟨50, 0.9, 0.1, 0⟩).stability ∧
        (meterTick false (1/10) none ⟨50, 0.9, 0.1, 0⟩).stability ≤ 1) ∧
      (0 ≤ (meterTick false (1/10) none ⟨50, 0.9, 0.1, 0⟩).interference ∧
        (meterTick false (1/10) none ⟨50, 0.9, 0.1, 0⟩).interference ≤ 1) ∧
      (0 ≤ (meterTick false (1/10) none ⟨50, 0.9, 0.1, 0⟩).gazeDurationMs ∧
        (meterTick false (1/10) none ⟨50, 0.9, 0.1, 0⟩).gazeDurationMs ≤ 20000) :=
  meterTick_all_bounds false (1/10) none ⟨50, 0.9, 0.1, 0⟩ (by norm_num) (by norm_num)

theorem inCenterB_none : inCenterB none = false := rfl

/-- C9 (amended): a TRAPPED tick with no face applies the ordinary
not-centered decay and then a second, separate no-face decay on top of it
(stacking); the additional no-face rates (6/s for signal, 0.35/s for
stability) are slower than the ordinary decay rates (8/s, 0.8/s), while the
combined no-face decay is faster than the ordinary decay alone. -/
theorem noFace_stacked_decay (trustIssues : Bool) (dt : ℚ) (m : Meters) :
    (meterTick trustIssues dt none m).signal
        = clamp (clamp (m.signal - dt * LINK_DECAY_PER_SEC) 0 100
            - dt * NO_FACE_DECAY_PER_SEC) 0 100 ∧
      (meterTick trustIssues dt none m).stability
        = clamp (clamp (m.stability - dt * STABILITY_DECAY_PER_SEC) 0 1
            - dt * NO_FACE_STABILITY_DECAY_PER_SEC) 0 1 ∧
      NO_FACE_DECAY_PER_SEC < LINK_DECAY_PER_SEC ∧
      NO_FACE_STABILITY_DECAY_PER_SEC < STABILITY_DECAY_PER_SEC ∧
      LINK_DECAY_PER_SEC
        < LINK_DECAY_PER_SEC + NO_FACE_DECAY_PER_SEC ∧
      STABILITY_DECAY_PER_SEC
        < STABILITY_DECAY_PER_SEC + NO_FACE_STABILITY_DECAY_PER_SEC := by
  refine ⟨?_, ?_, ?_, ?_, ?_, ?_⟩
  · simp only [meterTick, inCenterB_none, Option.isSome_none, if_true, if_false,
      Bool.false_eq_true]
  · simp only [meterTick, inCenterB_none, Option.isSome_none, if_true, if_false,
      Bool.false_eq_true]
  all_goals norm_num [NO_FACE_DECAY_PER_SEC, LINK_DECAY_PER_SEC,
    NO_FACE_STABILITY_DECAY_PER_SEC, STABILITY_DECAY_PER_SEC]

/-- C9 counterexample: at a concrete no-face tick (dt = 0.1 s from signal 50),
the ordinary decay removes 0.8 while the additional no-face decay removes only
0.6: the additional no-face rate (6/s) is NOT faster than the ordinary decay
rate (8/s), and likewise for stability (0.35/s vs 0.8/s). -/
theorem noFace_rate_not_faster :
    (meterTick false (1/10) none ⟨50, 0.9, 0.1, 0⟩).signal = 48.6 ∧
      50 - (meterTick false (1/10) none ⟨50, 0.9, 0.1, 0⟩).signal
        = (1/10) * LINK_DECAY_PER_SEC + (1/10) * NO_FACE_DECAY_PER_SEC ∧
      ¬ LINK_DECAY_PER_SEC < NO_FACE_DECAY_PER_SEC ∧
      ¬ STABILITY_DECAY_PER_SEC < NO_FACE_STABILITY_DECAY_PER_SEC := by
  have h : (meterTick false (1/10) none ⟨50, 0.9, 0.1, 0⟩).signal = 48.6 := by
    simp only [meterTick, inCenterB_none, Option.isSome_none, if_true, if_false,
      Bool.false_eq_true]
    norm_num [clamp, LINK_DECAY_PER_SEC, NO_FACE_DECAY_PER_SEC]
  refine ⟨h, ?_, ?_, ?_⟩
  · rw [h]
    norm_num [LINK_DECAY_PER_SEC, NO_FACE_DECAY_PER_SEC]
  all_goals norm_num [LINK_DECAY_PER_SEC, NO_FACE_DECAY_PER_SEC,
    STABILITY_DECAY_PER_SEC, NO_FACE_STABILITY_DECAY_PER_SEC]

/-- Epsilon-gated publication of a meter value
(`publishValue`: publish only when `|value - outputRef.current| >= epsilon`). -/
def publishValue (value outRef epsilon : ℚ) : ℚ :=
  if epsilon ≤ |value - outRef| then value else outRef

/-- Meter-engine state as the orchestrator sees it: refs, published values
and the current phase. -/
structure EngineState where
  phase : Phase
  meters : Meters
  signalOut : ℚ
  stabilityOut : ℚ
  interferenceOut : ℚ
  gazeOut : ℚ
deriving DecidableEq, Repr

/-- One run of the TRAPPED meter effect: the continuous tick followed by the
epsilon-gated publication of each meter (no-op outside active TRAPPED). -/
def tickAndPublish (isGameplayActive trustIssues : Bool) (dt : ℚ)
    (box : Option FaceBox) (s : EngineState) : EngineState :=
  if isGameplayActive = false ∨ s.phase ≠ Phase.TRAPPED then s
  else
    let m := meterTick trustIssues dt box s.meters
    { s with
      meters := m
      signalOut := publishValue m.signal s.signalOut 0.15
      stabilityOut := publishValue m.stability s.stabilityOut 0.01
      interferenceOut := publishValue m.interference s.interferenceOut 0.01
      gazeOut := publishValue m.gazeDurationMs s.gazeOut 120 }

/-- The TRAPPED exit gate (the `signal >= 99` effect): when the published
signal reaches 99 the ref and the published value are snapped to 100 and the
phase advances to ANXIOUS. -/
def signalGateCheck (isGameplayActive : Bool) (s : EngineState) : EngineState :=
  if isGameplayActive = false ∨ s.phase ≠ Phase.TRAPPED then s
  else if 99 ≤ s.signalOut then
    { s with
      meters := { s.meters with signal := 100 }
      signalOut := 100
      phase := Phase.ANXIOUS }
  else s

/-- A full meter-engine evaluation: tick, publish, then the exit-gate check. -/
def engineStep (isGameplayActive trustIssues : Bool) (dt : ℚ)
    (box : Option FaceBox) (s : EngineState) : EngineState :=
  signalGateCheck isGameplayActive (tickAndPublish isGameplayActive trustIssues dt box s)

/-- C1: during active TRAPPED, the very next engine evaluation whose published
signal reaches 99 or above snaps the signal ref and the published signal to
exactly 100 and advances the phase to ANXIOUS; below 99 the phase stays
TRAPPED; and whenever an engine step lands in ANXIOUS, signal is exactly 100. -/
theorem trapped_exit_gate (trustIssues : Bool) (dt : ℚ) (box : Option FaceBox)
    (s : EngineState) (hp : s.phase = Phase.TRAPPED) :
    (99 ≤ (tickAndPublish true trustIssues dt box s).signalOut →
        (engineStep true trustIssues dt box s).phase = Phase.ANXIOUS ∧
        (engineStep true trustIssues dt box s).meters.signal = 100 ∧
        (engineStep true trustIssues dt box s).signalOut = 100) ∧
      ((tickAndPublish true trustIssues dt box s).signalOut < 99 →
        (engineStep true trustIssues dt box s).phase = Phase.TRAPPED) ∧
      ((engineStep true trustIssues dt box s).phase = Phase.ANXIOUS →
        (engineStep true trustIssues dt box s).meters.signal = 100 ∧
        (engineStep true trustIssues dt box s).signalOut = 100) := by
  have hphase : (tickAndPublish true trustIssues dt box s).phase = Phase.TRAPPED := by
    unfold tickAndPublish
    split
    · exact hp
    · exact hp
  unfold engineStep signalGateCheck
  rw [hphase]
  by_cases h99 : 99 ≤ (tickAndPublish true trustIssues dt box s).signalOut
  · rw [if_neg (by simp), if_pos h99]
    exact ⟨fun _ => ⟨rfl, rfl, rfl⟩, fun hlt => absurd h99 (not_le.mpr hlt), fun _ => ⟨rfl, rfl⟩⟩
  · rw [if_neg (by simp), if_neg h99]
    refine ⟨fun h => absurd h h99, fun _ => hphase, fun habs => ?_⟩
    rw [hphase] at habs
    exact absurd habs (by simp)

/-- Witness for C1: a concrete TRAPPED state with published signal 99.5
(dt = 0, no face) transitions to ANXIOUS with signal snapped to 100. -/
theorem trapped_exit_gate_witness :
    (engineStep true false 0 none
        ⟨Phase.TRAPPED, ⟨99.5, 0.9, 0.1, 0⟩, 99.5, 0.9, 0.1, 0⟩).phase = Phase.ANXIOUS ∧
      (engineStep true false 0 none
        ⟨Phase.TRAPPED, ⟨99.5, 0.9, 0.1, 0⟩, 99.5, 0.9, 0.1, 0⟩).meters.signal = 100 ∧
      (engineStep true false 0 none
        ⟨Phase.TRAPPED, ⟨99.5, 0.9, 0.1, 0⟩, 99.5, 0.9, 0.1, 0⟩).signalOut = 100 := by
  have h := (trapped_exit_gate false 0 none
      ⟨Phase.TRAPPED, ⟨99.5, 0.9, 0.1, 0⟩, 99.5, 0.9, 0.1, 0⟩ rfl).1
  apply h
  unfold tickAndPublish
  rw [if_neg (by simp)]
  dsimp only
  have hm : (meterTick false 0 none ⟨99.5, 0.9, 0.1, 0⟩).signal = 99.5 := by
    simp only [meterTick, inCenterB_none, Option.isSome_none, if_true, if_false,
      Bool.false_eq_true]
    norm_num [clamp, LINK_DECAY_PER_SEC, NO_FACE_DECAY_PER_SEC]
  rw [hm]
  unfold publishValue
  norm_num

/-- Phase-scoped counters touched by the lock minigame and the WORK/BREAKING
transitions. -/
structure GameCounters where
  phase : Phase
  precisionStage : ℕ
  transferCount : ℕ
  firewallProgress : ℚ
deriving DecidableEq, Repr

/-- `handlePrecisionHit` from ChatService.ts: ignored outside ANXIOUS; a hit
at stage >= 3 resets the WORK/BREAKING counters and advances the phase to
WORK; otherwise the stage advances by one. -/
def handlePrecisionHit (s : GameCounters) (stageValue : ℕ) : GameCounters :=
  if s.phase ≠ Phase.ANXIOUS then s
  else if 3 ≤ stageValue then
    { s with transferCount := 0, firewallProgress := 0, phase := Phase.WORK }
  else { s with precisionStage := stageValue + 1 }

/-- `handlePrecisionMiss` from ChatService.ts: ignored outside ANXIOUS;
otherwise the stage regresses by one with floor 1
(`setPrecisionStage(Math.max(1, stageValue - 1))`). -/
def handlePrecisionMiss (s : GameCounters) (stageValue : ℕ) : GameCounters :=
  if s.phase ≠ Phase.ANXIOUS then s
  else { s with precisionStage := max 1 (stageValue - 1) }

/-- `n` consecutive misses, each reported at the then-current stage. -/
def missRun (n : ℕ) (s : GameCounters) : GameCounters :=
  match n with
  | 0 => s
  | n + 1 => missRun n (handlePrecisionMiss s s.precisionStage)

theorem handlePrecisionMiss_phase (s : GameCounters) (v : ℕ) :
    (handlePrecisionMiss s v).phase = s.phase := by
  unfold handlePrecisionMiss
  split <;> rfl

theorem missRun_stage_ge_one (n : ℕ) (s : GameCounters) (h1 : 1 ≤ s.precisionStage) :
    1 ≤ (missRun n s).precisionStage := by
  induction n generalizing s with
  | zero => exact h1
  | succ n ih =>
    unfold missRun
    apply ih
    unfold handlePrecisionMiss
    split
    · exact h1
    · exact le_max_left 1 _

/-- C5: during ANXIOUS, a hit at stage s < 3 advances the stage to s+1
(staying in ANXIOUS), a hit at stage 3 advances the phase to WORK, a miss
regresses the stage by exactly one with floor 1, and any number of
consecutive misses keeps the stage at 1 or above. -/
theorem precision_stage_rules (s : GameCounters) (h : s.phase = Phase.ANXIOUS)
    (h1 : 1 ≤ s.precisionStage) :
    (∀ v, v < 3 →
        (handlePrecisionHit s v).precisionStage = v + 1 ∧
        (handlePrecisionHit s v).phase = Phase.ANXIOUS) ∧
      (handlePrecisionHit s 3).phase = Phase.WORK ∧
      (∀ v, (handlePrecisionMiss s v).precisionStage = max 1 (v - 1)) ∧
      (∀ n, 1 ≤ (missRun n s).precisionStage) := by
  refine ⟨?_, ?_, ?_, fun n => missRun_stage_ge_one n s h1⟩
  · intro v hv
    unfold handlePrecisionHit
    rw [if_neg (by simp [h]), if_neg (by omega)]
    exact ⟨rfl, h⟩
  · unfold handlePrecisionHit
    rw [if_neg (by simp [h]), if_pos (le_refl 3)]
  · intro v
    unfold handlePrecisionMiss
    rw [if_neg (by simp [h])]

/-- Witness for C5 at a concrete ANXIOUS state of stage 1: a hit advances to
stage 2; a hit reported at stage 3 enters WORK; a miss at stage 1 floors at 1;
five consecutive misses keep the stage at least 1. -/
theorem precision_stage_rules_witness :
    ((handlePrecisionHit ⟨Phase.ANXIOUS, 1, 0, 0⟩ 1).precisionStage = 2 ∧
        (handlePrecisionHit ⟨Phase.ANXIOUS, 1, 0, 0⟩ 1).phase = Phase.ANXIOUS) ∧
      (handlePrecisionHit ⟨Phase.ANXIOUS, 1, 0, 0⟩ 3).phase = Phase.WORK ∧
      (handlePrecisionMiss ⟨Phase.ANXIOUS, 1, 0, 0⟩ 1).precisionStage = max 1 (1 - 1) ∧
      1 ≤ (missRun 5 ⟨Phase.ANXIOUS, 1, 0, 0⟩).precisionStage := by
  have h := precision_stage_rules ⟨Phase.ANXIOUS, 1, 0, 0⟩ rfl (le_refl 1)
  exact ⟨h.1 1 (by omega), h.2.1, h.2.2.1 1, h.2.2.2 5⟩

/-- The BREAKING key-mash handler: a space keydown during active BREAKING
adds `FIREWALL_HIT_VALUE` to firewall progress, capped at 100. -/
def breakingKeyDown (isGameplayActive : Bool) (isSpace : Bool) (s : GameCounters) :
    GameCounters :=
  if isGameplayActive = false ∨ s.phase ≠ Phase.BREAKING then s
  else if isSpace = false then s
  else { s with firewallProgress := min 100 (s.firewallProgress + FIREWALL_HIT_VALUE) }

/-- The BREAKING decay interval (every 100 ms):
`setFirewallProgress(prev => Math.max(0, prev - FIREWALL_DECAY_PER_SEC * 0.1))`. -/
def breakingDecayTick (isGameplayActive : Bool) (s : GameCounters) : GameCounters :=
  if isGameplayActive = false ∨ s.phase ≠ Phase.BREAKING then s
  else { s with firewallProgress := max 0 (s.firewallProgress - FIREWALL_DECAY_PER_SEC * 0.1) }

/-- The BREAKING completion effect: once firewall progress reaches 100 it is
pinned at 100 and the phase advances to AWAKENED. -/
def firewallCompleteCheck (s : GameCounters) : GameCounters :=
  if s.phase ≠ Phase.BREAKING ∨ s.firewallProgress < 100 then s
  else { s with firewallProgress := 100, phase := Phase.AWAKENED }

/-- `n` consecutive space presses with no intervening decay ticks. -/
def mashRun (n : ℕ) (s : GameCounters) : GameCounters :=
  match n with
  | 0 => s
  | n + 1 => mashRun n (breakingKeyDown true true s)

/-- C6: during active BREAKING each qualifying key press adds exactly 10 to
the firewall progress capped at 100, each decay tick subtracts 0.8 floored at
0, and ten presses from 0 with no intervening decay ticks reach exactly 100,
upon which the completion check advances the phase to AWAKENED with progress
pinned at 100. -/
theorem breaking_mash_rules (s : GameCounters) (h : s.phase = Phase.BREAKING) :
    (breakingKeyDown true true s).firewallProgress
        = min 100 (s.firewallProgress + 10) ∧
      (breakingDecayTick true s).firewallProgress
        = max 0 (s.firewallProgress - 0.8) ∧
      (s.firewallProgress = 0 →
        (mashRun 10 s).firewallProgress = 100 ∧
        (firewallCompleteCheck (mashRun 10 s)).phase = Phase.AWAKENED ∧
        (firewallCompleteCheck (mashRun 10 s)).firewallProgress = 100) := by
  obtain ⟨phase, stage, tc, fp⟩ := s
  cases h
  refine ⟨?_, ?_, ?_⟩
  · unfold breakingKeyDown
    rw [if_neg (by simp), if_neg (by simp)]
    norm_num [FIREWALL_HIT_VALUE]
  · unfold breakingDecayTick
    rw [if_neg (by simp)]
    norm_num [FIREWALL_DECAY_PER_SEC]
  · intro hfp
    dsimp only at hfp
    subst hfp
    have hmash : mashRun 10 ⟨Phase.BREAKING, stage, tc, 0⟩
        = ⟨Phase.BREAKING, stage, tc, 100⟩ := by
      norm_num [mashRun, breakingKeyDown, FIREWALL_HIT_VALUE]
    rw [hmash]
    unfold firewallCompleteCheck
    rw [if_neg (by norm_num)]
    exact ⟨rfl, rfl, rfl⟩

/-- Witness for C6 at the concrete BREAKING entry state (progress 0). -/
theorem breaking_mash_rules_witness :
    (breakingKeyDown true true ⟨Phase.BREAKING, 1, 0, 0⟩).firewallProgress
        = min 100 ((0 : ℚ) + 10) ∧
      (breakingDecayTick true ⟨Phase.BREAKING, 1, 0, 0⟩).firewallProgress
        = max 0 ((0 : ℚ) - 0.8) ∧
      (mashRun 10 ⟨Phase.BREAKING, 1, 0, 0⟩).firewallProgress = 100 ∧
      (firewallCompleteCheck (mashRun 10 ⟨Phase.BREAKING, 1, 0, 0⟩)).phase
        = Phase.AWAKENED := by
  have h := breaking_mash_rules ⟨Phase.BREAKING, 1, 0, 0⟩ rfl
  have h3 := h.2.2 rfl
  exact ⟨h.1, h.2.1, h3.1, h3.2.1⟩

/-- Presence-monitor state: the grace-window deadline, the one-shot warning
latch, the presentation countdown, and the one-shot failure latch.
`failFires` is a ghost counter of how many times the failure body actually
ran (it mirrors no source variable and influences nothing). -/
structure PresenceState where
  phase : Phase
  presenceDeadline : Option ℤ
  presenceWarned : Bool
  presenceWarning : Bool
  presenceRemainingMs : ℤ
  failureTriggered : Bool
  prevFaceDetected : Bool
  failFires : ℕ
deriving DecidableEq, Repr

/-- `clearPresenceTimers`: cancel the interval, drop the deadline, reset the
warning latch and restore the displayed countdown to the full grace. -/
def clearPresenceTimers (s : PresenceState) : PresenceState :=
  { s with
    presenceDeadline := none
    presenceWarned := false
    presenceWarning := false
    presenceRemainingMs := PRESENCE_GRACE_MS }

/-- `triggerFailure`: latched; on first call it clears the presence timers,
resets the run state and moves the phase to FAILED. -/
def triggerFailure (s : PresenceState) : PresenceState :=
  if s.failureTriggered then s
  else
    { clearPresenceTimers s with
      failureTriggered := true
      failFires := s.failFires + 1
      phase := Phase.FAILED }

/-- The phases in which the presence monitor is armed. -/
def presenceActivePhase (p : Phase) : Bool :=
  p = Phase.TRAPPED || p = Phase.ANXIOUS || p = Phase.WORK || p = Phase.BREAKING

/-- The presence-monitor effect, re-run whenever face detection (or the
phase) changes: inactive monitors clear; a detected face clears; a fresh
loss opens a 3000 ms grace window; a loss with a window already open leaves
it untouched. -/
def presenceEffect (isGameplayActive isGazeReady : Bool) (now : ℤ)
    (faceDetected : Bool) (s : PresenceState) : PresenceState :=
  if ¬(isGameplayActive = true ∧ presenceActivePhase s.phase = true ∧ isGazeReady = true)
      ∨ s.phase = Phase.FAILED then
    { clearPresenceTimers s with prevFaceDetected := false }
  else
    let s1 := { s with prevFaceDetected := faceDetected }
    if faceDetected then clearPresenceTimers s1
    else
      match s1.presenceDeadline with
      | some _ => s1
      | none =>
        { s1 with
          presenceDeadline := some (now + PRESENCE_GRACE_MS)
          presenceWarning := true
          presenceRemainingMs := PRESENCE_GRACE_MS }

/-- The 100 ms presence interval callback: no deadline means a stale tick
(ignored); a deadline in the future refreshes the countdown; an expired
deadline zeroes the countdown, clears the timers and triggers the failure. -/
def presenceIntervalTick (now : ℤ) (s : PresenceState) : PresenceState :=
  match s.presenceDeadline with
  | none => s
  | some deadline =>
    let remaining := deadline - now
    if remaining ≤ 0 then
      triggerFailure (clearPresenceTimers { s with presenceRemainingMs := 0 })
    else
      { s with presenceWarning := true, presenceRemainingMs := remaining }

/-- An interleaving of presence-monitor activations: face-detection effect
runs and interval ticks. -/
inductive PresenceEvent
  | face (now : ℤ) (detected : Bool)
  | tick (now : ℤ)
deriving DecidableEq, Repr

def presenceStep (isGameplayActive isGazeReady : Bool) (e : PresenceEvent)
    (s : PresenceState) : PresenceState :=
  match e with
  | PresenceEvent.face now d => presenceEffect isGameplayActive isGazeReady now d s
  | PresenceEvent.tick now => presenceIntervalTick now s

def presenceRun (isGameplayActive isGazeReady : Bool) (es : List PresenceEvent)
    (s : PresenceState) : PresenceState :=
  es.foldl (fun s e => presenceStep isGameplayActive isGazeReady e s) s

theorem triggerFailure_of_latched (s : PresenceState) (h : s.failureTriggered = true) :
    triggerFailure s = s := by
  unfold triggerFailure
  rw [if_pos h]

/-- Once the failure latch is set, no later presence event can fire the
failure body again or unset the latch. -/
theorem presenceStep_latch (isGameplayActive isGazeReady : Bool) (e : PresenceEvent)
    (s : PresenceState) (h : s.failureTriggered = true) :
    (presenceStep isGameplayActive isGazeReady e s).failureTriggered = true ∧
      (presenceStep isGameplayActive isGazeReady e s).failFires = s.failFires := by
  cases e with
  | face now d =>
    unfold presenceStep presenceEffect clearPresenceTimers
    dsimp only
    split
    · exact ⟨h, rfl⟩
    · split
      · exact ⟨h, rfl⟩
      · split <;> exact ⟨h, rfl⟩
  | tick now =>
    unfold presenceStep presenceIntervalTick
    dsimp only
    split
    · exact ⟨h, rfl⟩
    · split
      · rw [triggerFailure_of_latched
            (clearPresenceTimers { s with presenceRemainingMs := 0 }) h]
        exact ⟨h, rfl⟩
      · exact ⟨h, rfl⟩

theorem presenceRun_latch (isGameplayActive isGazeReady : Bool)
    (es : List PresenceEvent) (s : PresenceState) (h : s.failureTriggered = true) :
    (presenceRun isGameplayActive isGazeReady es s).failureTriggered = true ∧
      (presenceRun isGameplayActive isGazeReady es s).failFires = s.failFires := by
  induction es generalizing s with
  | nil => exact ⟨h, rfl⟩
  | cons e es ih =>
    unfold presenceRun
    rw [List.foldl_cons]
    obtain ⟨h1, h2⟩ := presenceStep_latch isGameplayActive isGazeReady e s h
    obtain ⟨h3, h4⟩ := ih _ h1
    exact ⟨h3, h4.trans h2⟩

/-- A fresh face loss at time `t` on an armed, windowless monitor opens a
full-length grace window ending at `t + PRESENCE_GRACE_MS`. -/
theorem presenceEffect_fresh_loss (isGazeReady : Bool) (t : ℤ) (s : PresenceState)
    (hArmed : presenceActivePhase s.phase = true) (hReady : isGazeReady = true)
    (hNotFailed : s.phase ≠ Phase.FAILED) (hClear : s.presenceDeadline = none) :
    presenceEffect true isGazeReady t false s
      = { s with
          prevFaceDetected := false
          presenceDeadline := some (t + PRESENCE_GRACE_MS)
          presenceWarning := true
          presenceRemainingMs := PRESENCE_GRACE_MS } := by
  unfold presenceEffect
  rw [if_neg (by simp [hArmed, hNotFailed, hReady])]
  dsimp only
  rw [if_neg (by simp)]
  have : ({ s with prevFaceDetected := false } : PresenceState).presenceDeadline = none :=
    hClear
  rw [this]

/-- A face regained on an armed monitor clears the countdown completely. -/
theorem presenceEffect_regain (isGazeReady : Bool) (t : ℤ) (s : PresenceState)
    (hArmed : presenceActivePhase s.phase = true) (hReady : isGazeReady = true)
    (hNotFailed : s.phase ≠ Phase.FAILED) :
    presenceEffect true isGazeReady t true s
      = clearPresenceTimers { s with prevFaceDetected := true } := by
  unfold presenceEffect
  rw [if_neg (by simp [hArmed, hNotFailed, hReady])]
  dsimp only
  rw [if_pos rfl]

/-- An interval tick strictly before the deadline only refreshes the
countdown: no failure, no phase change, the window stays open. -/
theorem presenceIntervalTick_early (t deadline : ℤ) (s : PresenceState)
    (hD : s.presenceDeadline = some deadline) (hEarly : t < deadline) :
    presenceIntervalTick t s
      = { s with presenceWarning := true, presenceRemainingMs := deadline - t } := by
  unfold presenceIntervalTick
  rw [hD]
  dsimp only
  rw [if_neg (by omega)]

/-- An interval tick at or past the deadline zeroes the display, clears the
window and runs the (unlatched) failure body. -/
theorem presenceIntervalTick_expired (t deadline : ℤ) (s : PresenceState)
    (hD : s.presenceDeadline = some deadline) (hLate : deadline ≤ t)
    (hLatch : s.failureTriggered = false) :
    presenceIntervalTick t s
      = { s with
          phase := Phase.FAILED
          presenceDeadline := none
          presenceWarned := false
          presenceWarning := false
          presenceRemainingMs := PRESENCE_GRACE_MS
          failureTriggered := true
          failFires := s.failFires + 1 } := by
  unfold presenceIntervalTick
  rw [hD]
  dsimp only
  rw [if_pos (by omega)]
  unfold triggerFailure clearPresenceTimers
  rw [if_neg (by simp [hLatch])]

/-- C4: on an armed presence monitor with no window open, (a) losing the face
at `t0`, ticking once at `t1` inside the grace period, and regaining the face
at `t1` leaves the phase unchanged and restores the fully cleared countdown
state, after which (b) a later loss at any `t2` opens a fresh full-length
3000 ms window; while (c) losing the face at `t0` and letting the grace
period fully elapse transitions the run to FAILED with the failure body
firing exactly once, and (d) the latch keeps it from ever firing again
within the run. -/
theorem presence_recovery_and_failure_once (s : PresenceState) (t0 t1 t2 : ℤ)
    (hArmed : presenceActivePhase s.phase = true)
    (hNotFailed : s.phase ≠ Phase.FAILED)
    (hClear : s.presenceDeadline = none)
    (hLatch : s.failureTriggered = false)
    (hEarly : t1 < t0 + PRESENCE_GRACE_MS) :
    ((presenceRun true true
          [PresenceEvent.face t0 false, PresenceEvent.tick t1, PresenceEvent.face t1 true]
          s).phase = s.phase ∧
        (presenceRun true true
          [PresenceEvent.face t0 false, PresenceEvent.tick t1, PresenceEvent.face t1 true]
          s).presenceDeadline = none ∧
        (presenceRun true true
          [PresenceEvent.face t0 false, PresenceEvent.tick t1, PresenceEvent.face t1 true]
          s).presenceWarned = false ∧
        (presenceRun true true
          [PresenceEvent.face t0 false, PresenceEvent.tick t1, PresenceEvent.face t1 true]
          s).presenceWarning = false ∧
        (presenceRun true true
          [PresenceEvent.face t0 false, PresenceEvent.tick t1, PresenceEvent.face t1 true]
          s).presenceRemainingMs = PRESENCE_GRACE_MS ∧
        (presenceRun true true
          [PresenceEvent.face t0 false, PresenceEvent.tick t1, PresenceEvent.face t1 true]
          s).failureTriggered = false ∧
        (presenceRun true true
          [PresenceEvent.face t0 false, PresenceEvent.tick t1, PresenceEvent.face t1 true]
          s).failFires = s.failFires) ∧
      (presenceEffect true true t2 false
          (presenceRun true true
            [PresenceEvent.face t0 false, PresenceEvent.tick t1, PresenceEvent.face t1 true]
            s)).presenceDeadline = some (t2 + PRESENCE_GRACE_MS) ∧
      ((presenceRun true true
          [PresenceEvent.face t0 false, PresenceEvent.tick (t0 + PRESENCE_GRACE_MS)]
          s).phase = Phase.FAILED ∧
        (presenceRun true true
          [PresenceEvent.face t0 false, PresenceEvent.tick (t0 + PRESENCE_GRACE_MS)]
          s).failureTriggered = true ∧
        (presenceRun true true
          [PresenceEvent.face t0 false, PresenceEvent.tick (t0 + PRESENCE_GRACE_MS)]
          s).failFires = s.failFires + 1) ∧
      (∀ es : List PresenceEvent,
        (presenceRun true true es
          (presenceRun true true
            [PresenceEvent.face t0 false, PresenceEvent.tick (t0 + PRESENCE_GRACE_MS)]
            s)).failFires = s.failFires + 1) := by
  have h1 := presenceEffect_fresh_loss true t0 s hArmed rfl hNotFailed hClear
  have hrec : presenceRun true true
      [PresenceEvent.face t0 false, PresenceEvent.tick t1, PresenceEvent.face t1 true] s
      = clearPresenceTimers
          { s with
            prevFaceDetected := true
            presenceDeadline := some (t0 + PRESENCE_GRACE_MS)
            presenceWarning := true
            presenceRemainingMs := t0 + PRESENCE_GRACE_MS - t1 } := by
    unfold presenceRun
    simp only [List.foldl_cons, List.foldl_nil, presenceStep]
    rw [h1]
    rw [presenceIntervalTick_early t1 (t0 + PRESENCE_GRACE_MS) _ rfl hEarly]
    exact presenceEffect_regain true t1 _ hArmed rfl hNotFailed
  have hfail : presenceRun true true
      [PresenceEvent.face t0 false, PresenceEvent.tick (t0 + PRESENCE_GRACE_MS)] s
      = { s with
          prevFaceDetected := false
          phase := Phase.FAILED
          presenceDeadline := none
          presenceWarned := false
          presenceWarning := false
          presenceRemainingMs := PRESENCE_GRACE_MS
          failureTriggered := true
          failFires := s.failFires + 1 } := by
    unfold presenceRun
    simp only [List.foldl_cons, List.foldl_nil, presenceStep]
    rw [h1]
    exact presenceIntervalTick_expired (t0 + PRESENCE_GRACE_MS) (t0 + PRESENCE_GRACE_MS) _
      rfl (le_refl _) hLatch
  refine ⟨?_, ?_, ?_, ?_⟩
  · rw [hrec]
    exact ⟨rfl, rfl, rfl, rfl, rfl, hLatch, rfl⟩
  · rw [hrec]
    rw [presenceEffect_fresh_loss true t2
      (clearPresenceTimers
        { s with
          prevFaceDetected := true
          presenceDeadline := some (t0 + PRESENCE_GRACE_MS)
          presenceWarning := true
          presenceRemainingMs := t0 + PRESENCE_GRACE_MS - t1 })
      hArmed rfl hNotFailed rfl]
  · rw [hfail]
    exact ⟨rfl, rfl, rfl⟩
  · intro es
    rw [hfail]
    exact (presenceRun_latch true true es _ rfl).2

/-- Witness for C4: a run armed in TRAPPED with the face lost at 1000 ms,
ticked at 2000 ms and regained at 2000 ms recovers with a cleared countdown;
a fresh loss at 10000 ms re-arms a full window; letting the loss at 1000 ms
expire fails the run exactly once and stays failed. -/
theorem presence_recovery_and_failure_once_witness :
    ((presenceRun true true
          [PresenceEvent.face 1000 false, PresenceEvent.tick 2000, PresenceEvent.face 2000 true]
          ⟨Phase.TRAPPED, none, false, false, PRESENCE_GRACE_MS, false, true, 0⟩).phase
        = Phase.TRAPPED ∧
        (presenceRun true true
          [PresenceEvent.face 1000 false, PresenceEvent.tick 2000, PresenceEvent.face 2000 true]
          ⟨Phase.TRAPPED, none, false, false, PRESENCE_GRACE_MS, false, true, 0⟩).presenceDeadline
        = none) ∧
      (presenceEffect true true 10000 false
          (presenceRun true true
            [PresenceEvent.face 1000 false, PresenceEvent.tick 2000, PresenceEvent.face 2000 true]
            ⟨Phase.TRAPPED, none, false, false, PRESENCE_GRACE_MS, false, true, 0⟩)).presenceDeadline
        = some (10000 + PRESENCE_GRACE_MS) ∧
      (presenceRun true true
          [PresenceEvent.face 1000 false, PresenceEvent.tick (1000 + PRESENCE_GRACE_MS)]
          ⟨Phase.TRAPPED, none, false, false, PRESENCE_GRACE_MS, false, true, 0⟩).phase
        = Phase.FAILED ∧
      (presenceRun true true [PresenceEvent.tick (1000 + 2 * PRESENCE_GRACE_MS)]
          (presenceRun true true
            [PresenceEvent.face 1000 false, PresenceEvent.tick (1000 + PRESENCE_GRACE_MS)]
            ⟨Phase.TRAPPED, none, false, false, PRESENCE_GRACE_MS, false, true, 0⟩)).failFires
        = 1 := by
  have h := presence_recovery_and_failure_once
    ⟨Phase.TRAPPED, none, false, false, PRESENCE_GRACE_MS, false, true, 0⟩
    1000 2000 10000 rfl (by simp) rfl rfl (by norm_num [PRESENCE_GRACE_MS])
  exact ⟨⟨h.1.1, h.1.2.1⟩, h.2.1, h.2.2.1.1,
    h.2.2.2 [PresenceEvent.tick (1000 + 2 * PRESENCE_GRACE_MS)]⟩

/-- Shock severity, the `'gaze' | 'face'` parameter of `triggerSignalShock`. -/
inductive ShockSeverity
  | gaze
  | face
deriving DecidableEq, Repr

/-- State seen by the TRAPPED loss-edge detector: the meter refs, their
published values, the previous-frame detection flags, and a ghost counter of
how many shocks actually fired. -/
structure ShockState where
  meters : Meters
  signalOut : ℚ
  stabilityOut : ℚ
  interferenceOut : ℚ
  phase : Phase
  lastLookState : Bool
  lastFaceState : Bool
  shockFires : ℕ
deriving DecidableEq, Repr

/-- `triggerSignalShock`: a one-shot penalty whose signal drop depends on the
current signal (16 + 0.12·signal for a lost face, 12 + 0.08·signal for lost
gaze), a flat 0.2 stability penalty and a 0.35 interference bump, all
clamped, then published unconditionally through the epsilon gates. -/
def triggerSignalShock (severity : ShockSeverity) (s : ShockState) : ShockState :=
  let drop : ℚ :=
    match severity with
    | ShockSeverity.face => 16 + s.meters.signal * 0.12
    | ShockSeverity.gaze => 12 + s.meters.signal * 0.08
  let signal := clamp (s.meters.signal - drop) 0 100
  let stability := clamp (s.meters.stability - 0.2) 0 1
  let interference := clamp (s.meters.interference + 0.35) 0 1
  { s with
    meters := { s.meters with
      signal := signal, stability := stability, interference := interference }
    signalOut := publishValue signal s.signalOut 0.1
    stabilityOut := publishValue stability s.stabilityOut 0.01
    interferenceOut := publishValue interference s.interferenceOut 0.01
    shockFires := s.shockFires + 1 }

/-- The loss-edge effect in App (re-run whenever `isLooking`/`faceDetected`
change): outside TRAPPED it only records the new flags; inside TRAPPED a
was-looking-to-not edge fires a gaze shock and a was-detected-to-not edge
fires a face shock, then the flags are recorded. -/
def lossEdgeEffect (isLooking faceDetected : Bool) (s : ShockState) : ShockState :=
  if s.phase ≠ Phase.TRAPPED then
    { s with lastLookState := isLooking, lastFaceState := faceDetected }
  else
    let s1 :=
      if s.lastLookState = true ∧ isLooking = false then
        triggerSignalShock ShockSeverity.gaze s
      else s
    let s2 :=
      if s.lastFaceState = true ∧ faceDetected = false then
        triggerSignalShock ShockSeverity.face s1
      else s1
    { s2 with lastLookState := isLooking, lastFaceState := faceDetected }

/-- C8: in TRAPPED, only a detection edge fires the one-shot shock: a
was-looking frame followed by a not-looking frame (face still present)
applies exactly the gaze penalty — a signal drop of 12 + 0.08·signal, a flat
0.2 stability penalty, a 0.35 interference bump — and a was-detected
face followed by a lost face applies the 16 + 0.12·signal face penalty;
whereas a frame whose previous flags were already lost (sustained absence)
leaves every meter untouched and fires no shock at all. -/
theorem shock_only_on_detection_edge (s : ShockState) (hp : s.phase = Phase.TRAPPED) :
    (s.lastLookState = true → s.lastFaceState = true →
        (lossEdgeEffect false true s).meters.signal
            = clamp (s.meters.signal - (12 + s.meters.signal * 0.08)) 0 100 ∧
          (lossEdgeEffect false true s).meters.stability
            = clamp (s.meters.stability - 0.2) 0 1 ∧
          (lossEdgeEffect false true s).meters.interference
            = clamp (s.meters.interference + 0.35) 0 1 ∧
          (lossEdgeEffect false true s).shockFires = s.shockFires + 1) ∧
      (s.lastLookState = false → s.lastFaceState = true →
        (lossEdgeEffect false false s).meters.signal
            = clamp (s.meters.signal - (16 + s.meters.signal * 0.12)) 0 100 ∧
          (lossEdgeEffect false false s).shockFires = s.shockFires + 1) ∧
      (∀ isLooking faceDetected : Bool,
        s.lastLookState = false → s.lastFaceState = false →
          (lossEdgeEffect isLooking faceDetected s).meters = s.meters ∧
          (lossEdgeEffect isLooking faceDetected s).shockFires = s.shockFires) := by
  refine ⟨?_, ?_, ?_⟩
  · intro hL hF
    unfold lossEdgeEffect
    rw [if_neg (by simp [hp])]
    dsimp only
    rw [if_neg (by simp), if_pos ⟨hL, rfl⟩]
    unfold triggerSignalShock
    exact ⟨rfl, rfl, rfl, rfl⟩
  · intro hL hF
    unfold lossEdgeEffect
    rw [if_neg (by simp [hp])]
    dsimp only
    rw [if_pos ⟨hF, rfl⟩, if_neg (by simp [hL])]
    unfold triggerSignalShock
    exact ⟨rfl, rfl⟩
  · intro isLooking faceDetected hL hF
    unfold lossEdgeEffect
    rw [if_neg (by simp [hp])]
    dsimp only
    rw [if_neg (by simp [hF]), if_neg (by simp [hL])]
    exact ⟨rfl, rfl⟩

/-- Witness for C8: from a TRAPPED state that was looking with a face, with
signal 50, losing gaze (face still present) drops signal to 34, stability by
0.2 and bumps interference by 0.35, firing one shock; from a state already
lost, another lost frame fires nothing. -/
theorem shock_only_on_detection_edge_witness :
    ((lossEdgeEffect false true
          ⟨⟨50, 0.5, 0.5, 0⟩, 50, 0.5, 0.5, Phase.TRAPPED, true, true, 0⟩).meters.signal
        = clamp (50 - (12 + 50 * 0.08)) 0 100 ∧
        (lossEdgeEffect false true
          ⟨⟨50, 0.5, 0.5, 0⟩, 50, 0.5, 0.5, Phase.TRAPPED, true, true, 0⟩).meters.stability
        = clamp (0.5 - 0.2) 0 1 ∧
        (lossEdgeEffect false true
          ⟨⟨50, 0.5, 0.5, 0⟩, 50, 0.5, 0.5, Phase.TRAPPED, true, true, 0⟩).meters.interference
        = clamp (0.5 + 0.35) 0 1 ∧
        (lossEdgeEffect false true
          ⟨⟨50, 0.5, 0.5, 0⟩, 50, 0.5, 0.5, Phase.TRAPPED, true, true, 0⟩).shockFires = 0 + 1) ∧
      ((lossEdgeEffect false false
          ⟨⟨50, 0.5, 0.5, 0⟩, 50, 0.5, 0.5, Phase.TRAPPED, false, false, 3⟩).meters
        = ⟨50, 0.5, 0.5, 0⟩ ∧
        (lossEdgeEffect false false
          ⟨⟨50, 0.5, 0.5, 0⟩, 50, 0.5, 0.5, Phase.TRAPPED, false, false, 3⟩).shockFires = 3) := by
  have h1 := (shock_only_on_detection_edge
    ⟨⟨50, 0.5, 0.5, 0⟩, 50, 0.5, 0.5, Phase.TRAPPED, true, true, 0⟩ rfl).1 rfl rfl
  have h2 := (shock_only_on_detection_edge
    ⟨⟨50, 0.5, 0.5, 0⟩, 50, 0.5, 0.5, Phase.TRAPPED, false, false, 3⟩ rfl).2.2
    false false rfl rfl
  exact ⟨h1, h2⟩

/-- The gaze estimator's "looking" tolerances
(`LOOK_CENTER_X_TOL` / `LOOK_CENTER_Y_TOL` in useGazeTracker). -/
def LOOK_CENTER_X_TOL : ℚ := 0.12
def LOOK_CENTER_Y_TOL : ℚ := 0.18

/-- A normalized 2D point (an anchor landmark or a hand centroid). -/
structure Pt where
  x : ℚ
  y : ℚ
deriving DecidableEq, Repr

/-- The gaze estimator's published "looking" flag: the anchor landmark must
sit within ±0.12 horizontally and ±0.18 vertically of frame center
(`looking = dx < LOOK_CENTER_X_TOL && dy < LOOK_CENTER_Y_TOL`). -/
def lookingFlag (anchor : Pt) : Bool :=
  decide (|anchor.x - 0.5| < LOOK_CENTER_X_TOL) &&
    decide (|anchor.y - 0.5| < LOOK_CENTER_Y_TOL)

theorem inCenterB_some_iff (b : FaceBox) :
    inCenterB (some b) = true ↔
      |b.x + b.width / 2 - 0.5| < 0.18 ∧ |b.y + b.height / 2 - 0.5| < 0.22 := by
  simp only [inCenterB, Bool.and_eq_true, decide_eq_true_eq]

/-- C10: TRAPPED meter growth is gated by the face-box center lying within
±0.18 horizontally and ±0.22 vertically of frame center (`inCenterB`), not
by the estimator's "looking" flag, which uses the tighter ±0.12/±0.18 anchor
tolerance: whenever the box-center gate holds, a tick grows every meter at
the gain rates regardless of the looking flag; and for the concrete frame
whose box center and anchor landmark both sit at (0.65, 0.5) the gate holds
and signal grows while the estimator reports not-looking. -/
theorem growth_gated_by_center_not_looking_flag :
    (∀ (trustIssues : Bool) (dt : ℚ) (b : FaceBox) (m : Meters),
        inCenterB (some b) = true →
          (meterTick trustIssues dt (some b) m).signal
              = clamp (m.signal + dt * LINK_GAIN_PER_SEC
                  * (if trustIssues then 0.8 else 1)) 0 100 ∧
            (meterTick trustIssues dt (some b) m).stability
              = clamp (m.stability + dt * STABILITY_GAIN_PER_SEC) 0 1 ∧
            (meterTick trustIssues dt (some b) m).gazeDurationMs
              = min 20000 (m.gazeDurationMs + dt * 1000)) ∧
      (∀ b : FaceBox,
        inCenterB (some b) = true ↔
          |b.x + b.width / 2 - 0.5| < 0.18 ∧ |b.y + b.height / 2 - 0.5| < 0.22) ∧
      (∀ p : Pt, lookingFlag p = true ↔
          |p.x - 0.5| < LOOK_CENTER_X_TOL ∧ |p.y - 0.5| < LOOK_CENTER_Y_TOL) ∧
      inCenterB (some ⟨0.6, 0.45, 0.1, 0.1⟩) = true ∧
      lookingFlag ⟨0.65, 0.5⟩ = false ∧
      (meterTick false (1/10) (some ⟨0.6, 0.45, 0.1, 0.1⟩) ⟨50, 0.5, 0.5, 0⟩).signal
        = 51 := by
  have hconc : inCenterB (some ⟨0.6, 0.45, 0.1, 0.1⟩) = true := by
    rw [inCenterB_some_iff]
    constructor <;> norm_num [abs_lt]
  refine ⟨?_, inCenterB_some_iff, ?_, hconc, ?_, ?_⟩
  · intro trustIssues dt b m hin
    simp only [meterTick, hin, Option.isSome_some, if_true, if_false, Bool.false_eq_true]
    exact ⟨trivial, trivial, trivial⟩
  · intro p
    simp only [lookingFlag, Bool.and_eq_true, decide_eq_true_eq]
  · have hx : decide (|(0.65 : ℚ) - 0.5| < LOOK_CENTER_X_TOL) = false := by
      rw [decide_eq_false_iff_not]
      norm_num [LOOK_CENTER_X_TOL, abs_lt]
    simp only [lookingFlag]
    rw [hx, Bool.false_and]
  · simp only [meterTick, hconc, Option.isSome_some, if_true, if_false, Bool.false_eq_true]
    norm_num [clamp, LINK_GAIN_PER_SEC]

/-- Witness for C10 at a concrete gated frame. -/
theorem growth_gated_by_center_not_looking_flag_witness :
    (meterTick false (1/10) (some ⟨0.6, 0.45, 0.1, 0.1⟩) ⟨50, 0.5, 0.5, 0⟩).signal
        = clamp ((50 : ℚ) + (1/10) * LINK_GAIN_PER_SEC * (if false then 0.8 else 1)) 0 100 ∧
      lookingFlag ⟨0.65, 0.5⟩ = false := by
  have h := growth_gated_by_center_not_looking_flag
  have hconc : inCenterB (some ⟨0.6, 0.45, 0.1, 0.1⟩) = true := h.2.2.2.1
  exact ⟨(h.1 false (1/10) ⟨0.6, 0.45, 0.1, 0.1⟩ ⟨50, 0.5, 0.5, 0⟩ hconc).1, h.2.2.2.2.1⟩

def TOTAL_BLOCKS : ℕ := 4
def ZONE_THRESHOLD : ℚ := 0.22
def MAGNET_THRESHOLD : ℚ := 0.28
def LOST_TRACKING_GRACE_FRAMES : ℕ := 12
def FIREWALL_X : ℚ := 0.5
def FIREWALL_HALF_WIDTH : ℚ := 0.035
def FIREWALL_COOLDOWN_MS : ℚ := 900
def FIREWALL_HEIGHT : ℚ := 0.34

def clamp01 (v : ℚ) : ℚ := clamp v 0 1

def clampPt (p : Pt) : Pt := ⟨clamp01 p.x, clamp01 p.y⟩

/-- The source zone of the block-transfer task (`zoneA` in BlockTask.tsx). -/
def zoneA : Pt := ⟨0.18, 0.5⟩

/-- `distance(a, b) < r`, expressed on squared distances (`Math.hypot` has no
rational square root; for `r ≥ 0` the two comparisons agree). -/
def withinDist (a b : Pt) (r : ℚ) : Bool :=
  decide ((a.x - b.x) ^ 2 + (a.y - b.y) ^ 2 < r ^ 2)

/-- Whether the (clamped) hand point collides with the patrolling firewall
band at completion count `count`. -/
def inFirewallBandB (hand : Pt) (firewallY : ℚ) (count : ℕ) : Bool :=
  let firewallActive := decide (2 ≤ count) && decide (count < TOTAL_BLOCKS)
  let firewallTop := clamp (firewallY - FIREWALL_HEIGHT / 2) 0.04 (0.96 - FIREWALL_HEIGHT)
  let firewallBottom := firewallTop + FIREWALL_HEIGHT
  firewallActive && decide (|hand.x - FIREWALL_X| < FIREWALL_HALF_WIDTH) &&
    decide (firewallTop ≤ hand.y) && decide (hand.y ≤ firewallBottom)

/-- Block-transfer task state.  `completeFires`, `transferSuccessFires` and
`transferErrorFires` are ghost counters of the `onComplete`,
`onTransferSuccess` and `onTransferError` callback invocations. -/
structure BlockTaskState where
  completedCount : ℕ
  grabbing : Bool
  blockPos : Pt
  complete : Bool
  lostTrackingFrames : ℕ
  firewallCooldownAt : ℚ
  collisionActive : Bool
  completeFires : ℕ
  transferSuccessFires : ℕ
  transferErrorFires : ℕ
deriving DecidableEq, Repr

/-- The shared `next >= TOTAL_BLOCKS && !completeRef.current` completion
latch of BlockTask.tsx. -/
def blockTaskCompleteCheck (s : BlockTaskState) : BlockTaskState :=
  if TOTAL_BLOCKS ≤ s.completedCount ∧ s.complete = false then
    { s with complete := true, completeFires := s.completeFires + 1 }
  else s

/-- One run of the hand-tracking effect of BlockTask.tsx.  Reads the current
`handCentroid`, the moving target position and firewall height (driven by
their own loops) and `now` (`performance.now()`).  React state reads inside
one run see the pre-run values (in particular `if (grabbing)` still sees the
old flag right after a pickup). -/
def blockTaskStep (handCentroid : Option Pt) (targetPos : Pt) (firewallY : ℚ)
    (now : ℚ) (s : BlockTaskState) : BlockTaskState :=
  match handCentroid with
  | none =>
    if s.grabbing = true then
      let lf := s.lostTrackingFrames + 1
      if lf < LOST_TRACKING_GRACE_FRAMES then { s with lostTrackingFrames := lf }
      else
        blockTaskCompleteCheck
          { s with lostTrackingFrames := 0, grabbing := false, blockPos := zoneA }
    else blockTaskCompleteCheck s
  | some hc =>
    if TOTAL_BLOCKS ≤ s.completedCount then blockTaskCompleteCheck s
    else
      let s0 := { s with lostTrackingFrames := 0 }
      let hand := clampPt hc
      let nearZoneA := withinDist hand zoneA MAGNET_THRESHOLD
      let inZoneB := withinDist hand targetPos ZONE_THRESHOLD
      let inFwBand := inFirewallBandB hand firewallY s0.completedCount
      let grabbed := if s0.grabbing = false ∧ nearZoneA = true then true else s0.grabbing
      if s0.grabbing = true then
        if inFwBand = true ∧ FIREWALL_COOLDOWN_MS < now - s0.firewallCooldownAt then
          { s0 with
            firewallCooldownAt := now
            grabbing := false
            blockPos := zoneA
            collisionActive := true
            transferErrorFires := s0.transferErrorFires + 1 }
        else
          let s1 := { s0 with blockPos := hand }
          if inZoneB = true then
            blockTaskCompleteCheck
              { s1 with
                grabbing := false
                blockPos := zoneA
                transferSuccessFires := s1.transferSuccessFires + 1
                completedCount := s1.completedCount + 1 }
          else s1
      else { s0 with grabbing := grabbed }

/-- Once the completion latch is set, no further update can fire `onComplete`
again or unset the latch. -/
theorem blockTaskStep_complete_latch (handCentroid : Option Pt) (targetPos : Pt)
    (firewallY : ℚ) (now : ℚ) (s : BlockTaskState) (h : s.complete = true) :
    (blockTaskStep handCentroid targetPos firewallY now s).complete = true ∧
      (blockTaskStep handCentroid targetPos firewallY now s).completeFires
        = s.completeFires := by
  cases handCentroid with
  | none =>
    unfold blockTaskStep blockTaskCompleteCheck
    dsimp only
    split
    · split
      · exact ⟨h, rfl⟩
      · rw [if_neg (by simp [h])]
        exact ⟨h, rfl⟩
    · rw [if_neg (by simp [h])]
      exact ⟨h, rfl⟩
  | some hc =>
    unfold blockTaskStep blockTaskCompleteCheck
    dsimp only
    split
    · rw [if_neg (by simp [h])]
      exact ⟨h, rfl⟩
    · split
      · split
        · exact ⟨h, rfl⟩
        · split
          · rw [if_neg (by simp [h])]
            exact ⟨h, rfl⟩
          · exact ⟨h, rfl⟩
      · exact ⟨h, rfl⟩

/-- C7: in the block-transfer task, (a) a firewall collision while carrying
(with the 900 ms cooldown elapsed) resets the carried block to the source
zone, drops the carry, emits exactly one transfer-error and leaves the
transfer count — and the completion callback — untouched; (b) the drop that
brings the count from 3 to the configured total of 4 fires the completion
callback exactly once; and (c) on any later update the completion latch
keeps the callback from ever firing again. -/
theorem blockTask_complete_once_and_firewall_reset :
    (∀ (hc : Pt) (targetPos : Pt) (firewallY now : ℚ) (s : BlockTaskState),
        s.grabbing = true → s.completedCount < TOTAL_BLOCKS →
        inFirewallBandB (clampPt hc) firewallY s.completedCount = true →
        FIREWALL_COOLDOWN_MS < now - s.firewallCooldownAt →
          (blockTaskStep (some hc) targetPos firewallY now s).blockPos = zoneA ∧
          (blockTaskStep (some hc) targetPos firewallY now s).grabbing = false ∧
          (blockTaskStep (some hc) targetPos firewallY now s).transferErrorFires
            = s.transferErrorFires + 1 ∧
          (blockTaskStep (some hc) targetPos firewallY now s).completedCount
            = s.completedCount ∧
          (blockTaskStep (some hc) targetPos firewallY now s).transferSuccessFires
            = s.transferSuccessFires ∧
          (blockTaskStep (some hc) targetPos firewallY now s).completeFires
            = s.completeFires) ∧
      (∀ (hc : Pt) (targetPos : Pt) (firewallY now : ℚ) (s : BlockTaskState),
        s.grabbing = true → s.completedCount = 3 → s.complete = false →
        inFirewallBandB (clampPt hc) firewallY s.completedCount = false →
        withinDist (clampPt hc) targetPos ZONE_THRESHOLD = true →
          (blockTaskStep (some hc) targetPos firewallY now s).completedCount = 4 ∧
          (blockTaskStep (some hc) targetPos firewallY now s).complete = true ∧
          (blockTaskStep (some hc) targetPos firewallY now s).completeFires
            = s.completeFires + 1 ∧
          (blockTaskStep (some hc) targetPos firewallY now s).transferSuccessFires
            = s.transferSuccessFires + 1 ∧
          (blockTaskStep (some hc) targetPos firewallY now s).blockPos = zoneA ∧
          (blockTaskStep (some hc) targetPos firewallY now s).grabbing = false) ∧
      (∀ (handCentroid : Option Pt) (targetPos : Pt) (firewallY now : ℚ)
          (s : BlockTaskState), s.complete = true →
          (blockTaskStep handCentroid targetPos firewallY now s).complete = true ∧
          (blockTaskStep handCentroid targetPos firewallY now s).completeFires
            = s.completeFires) := by
  refine ⟨?_, ?_, fun hcd tp fy now s h => blockTaskStep_complete_latch hcd tp fy now s h⟩
  · intro hc targetPos firewallY now s hg hlt hband hcool
    unfold blockTaskStep
    dsimp only
    rw [if_neg (by omega)]
    rw [if_pos hg]
    rw [if_pos ⟨hband, hcool⟩]
    exact ⟨rfl, rfl, rfl, rfl, rfl, rfl⟩
  · intro hc targetPos firewallY now s hg hcount hcomp hband hzone
    obtain ⟨count, grab, bp, comp, lf, cd, col, cf, tsf, tef⟩ := s
    dsimp only at hg hcount hcomp hband hzone
    subst hg hcount hcomp
    unfold blockTaskStep blockTaskCompleteCheck
    dsimp only
    rw [if_neg (by norm_num [TOTAL_BLOCKS])]
    rw [if_pos rfl]
    rw [if_neg (by simp [hband])]
    rw [if_pos hzone]
    rw [if_pos ⟨by norm_num [TOTAL_BLOCKS], rfl⟩]
    exact ⟨rfl, rfl, rfl, rfl, rfl, rfl⟩

/-- Witness for C7: a concrete carry at count 2 colliding with the firewall
at frame center resets to the source with one transfer-error; a concrete
drop at count 3 far from the firewall completes with exactly one
`onComplete`; a later frame after completion fires nothing more. -/
theorem blockTask_complete_once_and_firewall_reset_witness :
    ((blockTaskStep (some ⟨0.5, 0.5⟩) ⟨0.82, 0.5⟩ 0.5 2000
          ⟨2, true, ⟨0.5, 0.5⟩, false, 0, 0, false, 0, 0, 0⟩).blockPos = zoneA ∧
        (blockTaskStep (some ⟨0.5, 0.5⟩) ⟨0.82, 0.5⟩ 0.5 2000
          ⟨2, true, ⟨0.5, 0.5⟩, false, 0, 0, false, 0, 0, 0⟩).transferErrorFires = 0 + 1 ∧
        (blockTaskStep (some ⟨0.5, 0.5⟩) ⟨0.82, 0.5⟩ 0.5 2000
          ⟨2, true, ⟨0.5, 0.5⟩, false, 0, 0, false, 0, 0, 0⟩).completedCount = 2) ∧
      ((blockTaskStep (some ⟨0.82, 0.5⟩) ⟨0.82, 0.5⟩ 0.5 2000
          ⟨3, true, ⟨0.8, 0.5⟩, false, 0, 0, false, 0, 0, 0⟩).completedCount = 4 ∧
        (blockTaskStep (some ⟨0.82, 0.5⟩) ⟨0.82, 0.5⟩ 0.5 2000
          ⟨3, true, ⟨0.8, 0.5⟩, false, 0, 0, false, 0, 0, 0⟩).completeFires = 0 + 1) ∧
      (blockTaskStep (some ⟨0.82, 0.5⟩) ⟨0.82, 0.5⟩ 0.5 3000
          (blockTaskStep (some ⟨0.82, 0.5⟩) ⟨0.82, 0.5⟩ 0.5 2000
            ⟨3, true, ⟨0.8, 0.5⟩, false, 0, 0, false, 0, 0, 0⟩)).completeFires
        = (blockTaskStep (some ⟨0.82, 0.5⟩) ⟨0.82, 0.5⟩ 0.5 2000
            ⟨3, true, ⟨0.8, 0.5⟩, false, 0, 0, false, 0, 0, 0⟩).completeFires := by
  have hmain := blockTask_complete_once_and_firewall_reset
  have hband1 : inFirewallBandB (clampPt ⟨0.5, 0.5⟩) 0.5 2 = true := by
    simp only [inFirewallBandB, clampPt, clamp01, Bool.and_eq_true, decide_eq_true_eq]
    norm_num [clamp, TOTAL_BLOCKS, FIREWALL_X, FIREWALL_HALF_WIDTH, FIREWALL_HEIGHT, abs_lt]
  have hband2 : inFirewallBandB (clampPt ⟨0.82, 0.5⟩) 0.5 3 = false := by
    have hx : decide (|(clampPt (⟨0.82, 0.5⟩ : Pt)).x - FIREWALL_X|
        < FIREWALL_HALF_WIDTH) = false := by
      rw [decide_eq_false_iff_not]
      norm_num [clampPt, clamp01, clamp, FIREWALL_X, FIREWALL_HALF_WIDTH, abs_lt]
    simp only [inFirewallBandB]
    rw [hx]
    simp
  have hzone2 : withinDist (clampPt ⟨0.82, 0.5⟩) ⟨0.82, 0.5⟩ ZONE_THRESHOLD = true := by
    simp only [withinDist, clampPt, clamp01, decide_eq_true_eq]
    norm_num [clamp, ZONE_THRESHOLD]
  have h1 := hmain.1 ⟨0.5, 0.5⟩ ⟨0.82, 0.5⟩ 0.5 2000
    ⟨2, true, ⟨0.5, 0.5⟩, false, 0, 0, false, 0, 0, 0⟩ rfl
    (by norm_num [TOTAL_BLOCKS]) hband1
    (by norm_num [FIREWALL_COOLDOWN_MS])
  have h2 := hmain.2.1 ⟨0.82, 0.5⟩ ⟨0.82, 0.5⟩ 0.5 2000
    ⟨3, true, ⟨0.8, 0.5⟩, false, 0, 0, false, 0, 0, 0⟩ rfl rfl rfl hband2 hzone2
  have h3 := hmain.2.2 (some ⟨0.82, 0.5⟩) ⟨0.82, 0.5⟩ 0.5 3000
    (blockTaskStep (some ⟨0.82, 0.5⟩) ⟨0.82, 0.5⟩ 0.5 2000
      ⟨3, true, ⟨0.8, 0.5⟩, false, 0, 0, false, 0, 0, 0⟩) h2.2.1
  exact ⟨⟨h1.1, h1.2.2.1, h1.2.2.2.1⟩, ⟨h2.1, h2.2.2.1⟩, h3.2⟩

end AwakeningLoop
